import Mathlib

/-!
Verification of the launcher script `launcher.py` of the
armenia-global-game-jam repository.

The script is embedded shallowly as a deterministic interpreter:
interactive input is a list of events (a line of text, or an interrupt
signal delivered at a blocking read), printed output is accumulated in a
list of strings, the single environment variable `GEMINI_API_KEY` is an
`Option String`, Python exceptions are the error side of `Except`, and
the outcome of spawning a child process is an oracle value (the child's
exit code, a spawn-time `FileNotFoundError`, or an interrupt delivered
while blocked on the child).
-/

namespace Launcher

/-- Python whitespace for `str.strip()` (ASCII range). -/
def pyIsSpace (c : Char) : Bool :=
  c = ' ' || c = '\t' || c = '\n' || c = '\r' || c = '\x0b' || c = '\x0c'

/-- Python `s.strip()`: drop leading and trailing whitespace. -/
def pyStrip (s : String) : String :=
  String.mk (((s.data.dropWhile pyIsSpace).reverse.dropWhile pyIsSpace).reverse)

/-- Python `s.startswith(marker)`. -/
def pyStartsWith (s marker : String) : Bool :=
  List.isPrefixOf marker.data s.data

/-- Python truthiness of a string: non-empty. -/
def pyTruthy (s : String) : Bool :=
  !s.data.isEmpty

/-- One event at a blocking read of standard input: either a line of text
or a KeyboardInterrupt delivered at that suspension point. -/
inductive InEvent
  | line (s : String)
  | interrupt
deriving DecidableEq, Repr

/-- The Python exceptions that can arise in `launcher.py`.
`systemExit c` models `sys.exit(c)`. -/
inductive PyExc
  | keyboardInterrupt
  | systemExit (code : Nat)
  | calledProcessError (code : Nat)
  | fileNotFoundError
  | eofError
deriving DecidableEq, Repr

/-- Process-visible state: the `GEMINI_API_KEY` environment variable and
the lines printed so far. -/
structure St where
  env : Option String
  out : List String
deriving DecidableEq, Repr

/-- `print(msg)`: append one line of output. -/
def pyPrint (st : St) (msg : String) : St :=
  { st with out := st.out ++ [msg] }

/-- Truthiness of `os.environ.get("GEMINI_API_KEY")`: present and non-empty. -/
def envTruthy : Option String → Bool
  | none => false
  | some s => pyTruthy s

/-- Outcome of `subprocess.run(cmd, check=True)` as an oracle: the child
exited with a code, the executable was not found at spawn time, or an
interrupt arrived while blocked on the child. -/
inductive SpawnOutcome
  | exit (code : Nat)
  | notFound
  | interrupt
deriving DecidableEq, Repr

/-- `subprocess.run(cmd, check=True)`: exit 0 returns normally, a non-zero
exit raises `CalledProcessError`, a missing executable raises
`FileNotFoundError`, an interrupt raises `KeyboardInterrupt`. -/
def subprocessRun : SpawnOutcome → Except PyExc Unit
  | SpawnOutcome.exit 0 => Except.ok ()
  | SpawnOutcome.exit (c + 1) => Except.error (PyExc.calledProcessError (c + 1))
  | SpawnOutcome.notFound => Except.error PyExc.fileNotFoundError
  | SpawnOutcome.interrupt => Except.error PyExc.keyboardInterrupt

/-- `str(e)` for a `CalledProcessError` with the given exit status: the
message carries the failing status. -/
def cpeStr (c : Nat) : String :=
  "Command returned non-zero exit status " ++ toString c ++ "."

def headerMsgs : List String :=
  ["=== Armenian Global Game Jam Launcher ===",
   "This game requires a Gemini API key to generate AI images.",
   "Get your free API key from: https://aistudio.google.com/app/apikey",
   ""]

def promptMsg : String :=
  "Enter your Gemini API key (or press Ctrl+C to exit): "

def acceptedMsg : String := "✓ API key accepted!"

def invalidMsg1 : String :=
  "Invalid API key format. API keys should start with AIza"

def invalidMsg2 : String :=
  "Please get a valid key from: https://aistudio.google.com/app/apikey"

/-- The `while True` input loop of `check_api_key` (launcher.py lines
22-36): read a line, strip it, accept iff non-empty and starting with
`"AIza"`; on acceptance write the environment variable and return the
key; otherwise print the diagnostic and repeat. -/
def checkApiKeyLoop : List InEvent → St → Except PyExc String × St × List InEvent
  | [], st => (Except.error PyExc.eofError, pyPrint st promptMsg, [])
  | InEvent.interrupt :: rest, st =>
      (Except.error PyExc.keyboardInterrupt, pyPrint st promptMsg, rest)
  | InEvent.line s :: rest, st =>
      let st1 := pyPrint st promptMsg
      let apiKey := pyStrip s
      if pyTruthy apiKey && pyStartsWith apiKey "AIza" then
        (Except.ok apiKey,
          pyPrint (pyPrint { st1 with env := some apiKey } acceptedMsg) "", rest)
      else
        checkApiKeyLoop rest
          (pyPrint (pyPrint (pyPrint st1 invalidMsg1) invalidMsg2) "")

/-- `check_api_key` (launcher.py lines 13-38): if the environment variable
already holds a truthy value, return it unchanged; otherwise print the
guidance header and enter the prompt loop. -/
def check_api_key (inp : List InEvent) (st : St) :
    Except PyExc String × St × List InEvent :=
  if envTruthy st.env then
    (Except.ok (st.env.getD ""), st, inp)
  else
    checkApiKeyLoop inp { st with out := st.out ++ headerMsgs }

/-- Which filesystem dependencies exist when a launch strategy runs:
the `.venv` sandbox directory, the resolved `pipedream-gui` executable,
and the `pytrek_cli.py` script. -/
structure FS where
  venvExists : Bool
  pipedreamExeExists : Bool
  pytrekCliExists : Bool
deriving DecidableEq, Repr

/-- `Path(__file__).parent`, abstracted as a path string. -/
def projectDir : String := "."

def venvDir : String := projectDir ++ "/.venv"

/-- The platform-conditional `pipedream-gui` executable path
(launcher.py lines 57-64). -/
def pipedreamExePath (win32 : Bool) : String :=
  if win32 then venvDir ++ "/Scripts/pipedream-gui.exe"
  else venvDir ++ "/bin/pipedream-gui"

def pytrekShScript : String := projectDir ++ "/pytrek-9000.sh"

def pytrekCliScript : String := projectDir ++ "/pytrek_cli.py"

/-- `sys.executable`, abstracted. -/
def pythonExecutable : String := "python3"

/-- The argument vector built by `run_with_gui` (launcher.py lines 71-77). -/
def guiCmd (win32 : Bool) : List String :=
  [pipedreamExePath win32, "--art-style",
   "StarTrek sci-fi game, orange monochrome", "bash", pytrekShScript]

/-- The argument vector of `run_cli` (launcher.py line 105). -/
def cliCmd : List String := [pythonExecutable, pytrekCliScript]

def guiBannerMsg : String :=
  "🎨 Launching with AI visualization (PipeDream GUI)..."

def venvMissingMsg : String :=
  "Error: Virtual environment not found. Run uv venv && uv pip install -e . first."

/-- `run_with_gui` (launcher.py lines 41-86): fail fast (exit 1) if the
`.venv` directory or the `pipedream-gui` executable is missing; otherwise
spawn the child, catching `CalledProcessError` and `FileNotFoundError`
into a diagnostic plus `sys.exit(1)`; any other exception propagates. -/
def run_with_gui (win32 : Bool) (fs : FS) (spawn : SpawnOutcome) (st : St) :
    Except PyExc Unit × St :=
  let st1 := pyPrint st guiBannerMsg
  if !fs.venvExists then
    (Except.error (PyExc.systemExit 1), pyPrint st1 venvMissingMsg)
  else if !fs.pipedreamExeExists then
    (Except.error (PyExc.systemExit 1),
      pyPrint st1 ("Error: pipedream-gui not found at " ++ pipedreamExePath win32))
  else
    match subprocessRun spawn with
    | Except.ok () => (Except.ok (), st1)
    | Except.error (PyExc.calledProcessError c) =>
        (Except.error (PyExc.systemExit 1),
          pyPrint st1 ("Error running GUI: " ++ cpeStr c))
    | Except.error PyExc.fileNotFoundError =>
        (Except.error (PyExc.systemExit 1),
          pyPrint st1 "Error: Required command not found")
    | Except.error e => (Except.error e, st1)

def cliBannerMsg : String :=
  "🚀 Launching terminal-only version (PyTrek)..."

/-- `run_cli` (launcher.py lines 89-108): fail fast (exit 1) if
`pytrek_cli.py` is missing; otherwise spawn the current interpreter on
it, catching only `CalledProcessError` into a diagnostic plus
`sys.exit(1)`; every other exception — including a spawn-time
`FileNotFoundError` — propagates. -/
def run_cli (fs : FS) (spawn : SpawnOutcome) (st : St) :
    Except PyExc Unit × St :=
  let st1 := pyPrint st cliBannerMsg
  if !fs.pytrekCliExists then
    (Except.error (PyExc.systemExit 1),
      pyPrint st1 ("Error: pytrek_cli.py not found at " ++ pytrekCliScript))
  else
    match subprocessRun spawn with
    | Except.ok () => (Except.ok (), st1)
    | Except.error (PyExc.calledProcessError c) =>
        (Except.error (PyExc.systemExit 1),
          pyPrint st1 ("Error running CLI: " ++ cpeStr c))
    | Except.error e => (Except.error e, st1)

def menuMsgs : List String :=
  ["🎮 Select Game Mode:",
   "1. Play with AI Visualization (Recommended)",
   "2. Play Terminal-Only Version",
   "3. Exit",
   ""]

/-- `show_menu` (launcher.py lines 111-117). -/
def show_menu (st : St) : St :=
  { st with out := st.out ++ menuMsgs }

def menuPromptMsg : String := "Enter your choice (1-3): "

def farewellMenuMsg : String := "Goodbye! 🖖"

def invalidChoiceMsg : String := "Invalid choice. Please enter 1, 2, or 3."

/-- The `while True` menu loop of `main` (launcher.py lines 125-139):
display the menu, read and strip a choice; `"1"` runs the GUI strategy
then breaks, `"2"` runs the CLI strategy then breaks, `"3"` prints the
farewell and raises `SystemExit 0`, anything else prints an error and
loops. -/
def mainLoop (win32 : Bool) (fs : FS) (spawn : SpawnOutcome) :
    List InEvent → St → Except PyExc Unit × St × List InEvent
  | [], st => (Except.error PyExc.eofError, pyPrint (show_menu st) menuPromptMsg, [])
  | InEvent.interrupt :: rest, st =>
      (Except.error PyExc.keyboardInterrupt,
        pyPrint (show_menu st) menuPromptMsg, rest)
  | InEvent.line s :: rest, st =>
      let st1 := pyPrint (show_menu st) menuPromptMsg
      let choice := pyStrip s
      if choice = "1" then
        let r := run_with_gui win32 fs spawn st1
        (r.1, r.2, rest)
      else if choice = "2" then
        let r := run_cli fs spawn st1
        (r.1, r.2, rest)
      else if choice = "3" then
        (Except.error (PyExc.systemExit 0), pyPrint st1 farewellMenuMsg, rest)
      else
        mainLoop win32 fs spawn rest
          (pyPrint (pyPrint st1 invalidChoiceMsg) "")

/-- `main` (launcher.py lines 120-139): run `check_api_key`, then the
menu loop; exceptions from either propagate. -/
def pymain (win32 : Bool) (fs : FS) (spawn : SpawnOutcome)
    (inp : List InEvent) (st : St) : Except PyExc Unit × St × List InEvent :=
  match check_api_key inp st with
  | (Except.ok _, st1, inp1) => mainLoop win32 fs spawn inp1 st1
  | (Except.error e, st1, inp1) => (Except.error e, st1, inp1)

/-- How the whole process ends: a normal exit with a status code, or an
exception escaping the top level (an unhandled termination printing a
traceback). -/
inductive Outcome
  | exited (code : Nat)
  | uncaught (e : PyExc)
deriving DecidableEq, Repr

def farewellTopMsg : String := "\n\nGoodbye! 🖖"

/-- The `if __name__ == "__main__"` block (launcher.py lines 143-148):
run `main()`; a `KeyboardInterrupt` is caught, prints the farewell and
exits 0; a `SystemExit c` terminates the process with status `c`; normal
return exits 0; any other exception is an unhandled termination. -/
def topLevel (win32 : Bool) (fs : FS) (spawn : SpawnOutcome)
    (env0 : Option String) (inp : List InEvent) : Outcome × St :=
  match pymain win32 fs spawn inp { env := env0, out := [] } with
  | (Except.ok _, st, _) => (Outcome.exited 0, st)
  | (Except.error PyExc.keyboardInterrupt, st, _) =>
      (Outcome.exited 0, pyPrint st farewellTopMsg)
  | (Except.error (PyExc.systemExit c), st, _) => (Outcome.exited c, st)
  | (Except.error e, st, _) => (Outcome.uncaught e, st)

/-! Theorems about the launcher, one per claim of the specification. -/

/-- Helper invariant of the credential prompt loop: whenever the loop
returns a key, the environment holds exactly that key, and the key is
non-empty and carries the `"AIza"` marker. -/
theorem checkApiKeyLoop_ok (inp : List InEvent) :
    ∀ st k st' rest, checkApiKeyLoop inp st = (Except.ok k, st', rest) →
      st'.env = some k ∧ pyTruthy k = true ∧ pyStartsWith k "AIza" = true := by
  induction inp with
  | nil =>
    intro st k st' rest h
    simp [checkApiKeyLoop] at h
  | cons ev tail ih =>
    intro st k st' rest h
    cases ev with
    | interrupt => simp [checkApiKeyLoop] at h
    | line s =>
      simp only [checkApiKeyLoop] at h
      split at h
      · next hcond =>
        have hc2 : pyTruthy (pyStrip s) = true ∧ pyStartsWith (pyStrip s) "AIza" = true := by
          simpa using hcond
        simp only [Prod.mk.injEq, Except.ok.injEq] at h
        obtain ⟨h1, h2, h3⟩ := h
        subst h1
        refine ⟨?_, hc2.1, hc2.2⟩
        rw [← h2]
        rfl
      · exact ih _ k st' rest h

/-- C1: a line read at the credential prompt is, after stripping
surrounding whitespace, accepted exactly when it is non-empty and starts
with the literal marker `"AIza"`; on acceptance the stripped value is
written into the environment under `GEMINI_API_KEY` and returned, and on
rejection the diagnostic lines are printed and the loop re-issues the
prompt on the remaining input. -/
theorem credential_prompt_accepts_iff_AIza (s : String) (rest : List InEvent) (st : St) :
    (pyTruthy (pyStrip s) = true ∧ pyStartsWith (pyStrip s) "AIza" = true →
      checkApiKeyLoop (InEvent.line s :: rest) st
        = (Except.ok (pyStrip s),
           pyPrint (pyPrint { pyPrint st promptMsg with env := some (pyStrip s) }
             acceptedMsg) "",
           rest))
  ∧ (¬ (pyTruthy (pyStrip s) = true ∧ pyStartsWith (pyStrip s) "AIza" = true) →
      checkApiKeyLoop (InEvent.line s :: rest) st
        = checkApiKeyLoop rest
            (pyPrint (pyPrint (pyPrint (pyPrint st promptMsg) invalidMsg1)
              invalidMsg2) "")) := by
  constructor
  · rintro ⟨h1, h2⟩
    simp [checkApiKeyLoop, h1, h2]
  · intro h
    have hb : (pyTruthy (pyStrip s) && pyStartsWith (pyStrip s) "AIza") = false := by
      cases ht : pyTruthy (pyStrip s) <;> cases hs : pyStartsWith (pyStrip s) "AIza" <;>
        simp_all
    simp [checkApiKeyLoop, hb]

/-- Witness for C1: the literal input `"AIza1234"` is accepted on the
first attempt with the environment updated, and the non-`AIza` input
`"sk-123"` is rejected and re-prompted. -/
theorem credential_prompt_accepts_iff_AIza_witness :
    checkApiKeyLoop [InEvent.line "AIza1234"] ⟨none, []⟩
      = (Except.ok "AIza1234", ⟨some "AIza1234", [promptMsg, acceptedMsg, ""]⟩, [])
  ∧ checkApiKeyLoop [InEvent.line "sk-123", InEvent.line "AIza1234"] ⟨none, []⟩
      = checkApiKeyLoop [InEvent.line "AIza1234"]
          ⟨none, [promptMsg, invalidMsg1, invalidMsg2, ""]⟩ := by
  constructor
  · rw [(credential_prompt_accepts_iff_AIza "AIza1234" [] ⟨none, []⟩).1 (by decide)]
    rfl
  · rw [(credential_prompt_accepts_iff_AIza "sk-123" [InEvent.line "AIza1234"]
      ⟨none, []⟩).2 (by decide)]
    rfl

/-- C2: a KeyboardInterrupt never escapes the top level as an unhandled
termination, and an interrupt at each suspension point — the credential
prompt, the menu prompt, or while blocked on a spawned child in either
launch mode — yields a zero-status exit with the farewell printed. -/
theorem interrupt_caught_graceful_exit (win32 : Bool) (fs : FS) (spawn : SpawnOutcome)
    (env0 : Option String) (inp rest : List InEvent) :
    ((topLevel win32 fs spawn env0 inp).1 ≠ Outcome.uncaught PyExc.keyboardInterrupt)
  ∧ (envTruthy env0 = false →
       topLevel win32 fs spawn env0 (InEvent.interrupt :: rest)
         = (Outcome.exited 0,
            ⟨env0, headerMsgs ++ [promptMsg, farewellTopMsg]⟩))
  ∧ (envTruthy env0 = true →
       topLevel win32 fs spawn env0 (InEvent.interrupt :: rest)
         = (Outcome.exited 0,
            ⟨env0, menuMsgs ++ [menuPromptMsg, farewellTopMsg]⟩))
  ∧ (envTruthy env0 = true → fs.venvExists = true → fs.pipedreamExeExists = true →
       topLevel win32 fs SpawnOutcome.interrupt env0 [InEvent.line "1"]
         = (Outcome.exited 0,
            ⟨env0, menuMsgs ++ [menuPromptMsg, guiBannerMsg, farewellTopMsg]⟩))
  ∧ (envTruthy env0 = true → fs.pytrekCliExists = true →
       topLevel win32 fs SpawnOutcome.interrupt env0 [InEvent.line "2"]
         = (Outcome.exited 0,
            ⟨env0, menuMsgs ++ [menuPromptMsg, cliBannerMsg, farewellTopMsg]⟩)) := by
  have h1 : pyStrip "1" = "1" := by decide
  have h2 : pyStrip "2" = "2" := by decide
  refine ⟨?_, fun he => ?_, fun he => ?_, fun he hv hp => ?_, fun he hc => ?_⟩
  · unfold topLevel
    rcases h : pymain win32 fs spawn inp ⟨env0, []⟩ with ⟨r, st, rem⟩
    cases r with
    | ok v => simp
    | error e => cases e <;> simp
  · simp [topLevel, pymain, check_api_key, he, checkApiKeyLoop, pyPrint,
      farewellTopMsg]
  · simp [topLevel, pymain, check_api_key, he, mainLoop, pyPrint, show_menu,
      farewellTopMsg]
  · simp [topLevel, pymain, check_api_key, he, mainLoop, h1, run_with_gui, hv, hp,
      subprocessRun, pyPrint, show_menu]
  · simp [topLevel, pymain, check_api_key, he, mainLoop, h2, run_cli, hc,
      subprocessRun, pyPrint, show_menu]

/-- Witness for C2 at concrete inputs: each suspension point, interrupted,
ends in a zero-status exit with the farewell printed. -/
theorem interrupt_caught_graceful_exit_witness :
    (topLevel false ⟨true, true, true⟩ (SpawnOutcome.exit 0) none
        [InEvent.line "bad", InEvent.line "AIza1"]).1
      ≠ Outcome.uncaught PyExc.keyboardInterrupt
  ∧ topLevel false ⟨true, true, true⟩ (SpawnOutcome.exit 0) none [InEvent.interrupt]
      = (Outcome.exited 0, ⟨none, headerMsgs ++ [promptMsg, farewellTopMsg]⟩)
  ∧ topLevel false ⟨true, true, true⟩ (SpawnOutcome.exit 0) (some "k")
        [InEvent.interrupt]
      = (Outcome.exited 0, ⟨some "k", menuMsgs ++ [menuPromptMsg, farewellTopMsg]⟩)
  ∧ topLevel false ⟨true, true, true⟩ SpawnOutcome.interrupt (some "k")
        [InEvent.line "1"]
      = (Outcome.exited 0,
         ⟨some "k", menuMsgs ++ [menuPromptMsg, guiBannerMsg, farewellTopMsg]⟩)
  ∧ topLevel false ⟨true, true, true⟩ SpawnOutcome.interrupt (some "k")
        [InEvent.line "2"]
      = (Outcome.exited 0,
         ⟨some "k", menuMsgs ++ [menuPromptMsg, cliBannerMsg, farewellTopMsg]⟩) :=
  ⟨(interrupt_caught_graceful_exit false ⟨true, true, true⟩ (SpawnOutcome.exit 0) none
      [InEvent.line "bad", InEvent.line "AIza1"] []).1,
   (interrupt_caught_graceful_exit false ⟨true, true, true⟩ (SpawnOutcome.exit 0)
      none [] []).2.1 rfl,
   (interrupt_caught_graceful_exit false ⟨true, true, true⟩ (SpawnOutcome.exit 0)
      (some "k") [] []).2.2.1 (by decide),
   (interrupt_caught_graceful_exit false ⟨true, true, true⟩ SpawnOutcome.interrupt
      (some "k") [] []).2.2.2.1 (by decide) rfl rfl,
   (interrupt_caught_graceful_exit false ⟨true, true, true⟩ SpawnOutcome.interrupt
      (some "k") [] []).2.2.2.2 (by decide) rfl⟩

/-- C3: any menu input whose stripped form is none of `"1"`, `"2"`, `"3"`
prints the error line and loops back to the menu, invoking no launch
strategy and not exiting: the run equals the loop continued on the
remaining input with only the error output appended. -/
theorem menu_invalid_input_redisplays (win32 : Bool) (fs : FS) (spawn : SpawnOutcome)
    (s : String) (rest : List InEvent) (st : St)
    (h1 : pyStrip s ≠ "1") (h2 : pyStrip s ≠ "2") (h3 : pyStrip s ≠ "3") :
    mainLoop win32 fs spawn (InEvent.line s :: rest) st
      = mainLoop win32 fs spawn rest
          (pyPrint (pyPrint (pyPrint (show_menu st) menuPromptMsg) invalidChoiceMsg) "") := by
  simp [mainLoop, h1, h2, h3]

/-- Witness for C3 at the concrete invalid input `"4"`. -/
theorem menu_invalid_input_redisplays_witness :
    mainLoop false ⟨true, true, true⟩ (SpawnOutcome.exit 0) [InEvent.line "4"] ⟨none, []⟩
      = mainLoop false ⟨true, true, true⟩ (SpawnOutcome.exit 0) []
          (pyPrint (pyPrint (pyPrint (show_menu ⟨none, []⟩) menuPromptMsg)
            invalidChoiceMsg) "") :=
  menu_invalid_input_redisplays false ⟨true, true, true⟩ (SpawnOutcome.exit 0) "4" []
    ⟨none, []⟩ (by decide) (by decide) (by decide)

/-- C4 counterexample: with all filesystem dependencies present, menu
input `"2"` followed by a spawn-time FileNotFoundError ends as an
unhandled `FileNotFoundError` termination, not as a diagnostic plus a
non-zero `sys.exit` — `run_cli` catches only `CalledProcessError`, so the
claim fails for Terminal Mode. -/
theorem cli_spawn_notfound_uncaught_cex :
    topLevel false ⟨true, true, true⟩ SpawnOutcome.notFound (some "AIzaTest")
        [InEvent.line "2"]
      = (Outcome.uncaught PyExc.fileNotFoundError,
         ⟨some "AIzaTest", menuMsgs ++ [menuPromptMsg, cliBannerMsg]⟩) := by
  rfl

/-- C4 as amended: Visual Mode reports a spawn-time FileNotFoundError
with a diagnostic and exits 1, and both modes report a child's non-zero
exit with a diagnostic and exit 1; but Terminal Mode propagates a
spawn-time FileNotFoundError as an uncaught exception. -/
theorem launch_failure_handling_amended (win32 : Bool) (fs : FS) (st : St) (c : Nat)
    (hv : fs.venvExists = true) (hp : fs.pipedreamExeExists = true)
    (hc : fs.pytrekCliExists = true) :
    (run_with_gui win32 fs SpawnOutcome.notFound st
        = (Except.error (PyExc.systemExit 1),
           pyPrint (pyPrint st guiBannerMsg) "Error: Required command not found"))
  ∧ (run_with_gui win32 fs (SpawnOutcome.exit (c + 1)) st
        = (Except.error (PyExc.systemExit 1),
           pyPrint (pyPrint st guiBannerMsg) ("Error running GUI: " ++ cpeStr (c + 1))))
  ∧ (run_cli fs (SpawnOutcome.exit (c + 1)) st
        = (Except.error (PyExc.systemExit 1),
           pyPrint (pyPrint st cliBannerMsg) ("Error running CLI: " ++ cpeStr (c + 1))))
  ∧ (run_cli fs SpawnOutcome.notFound st
        = (Except.error PyExc.fileNotFoundError, pyPrint st cliBannerMsg)) := by
  refine ⟨?_, ?_, ?_, ?_⟩ <;>
    simp [run_with_gui, run_cli, hv, hp, hc, subprocessRun]

/-- Witness for the amended C4 at a concrete state. -/
theorem launch_failure_handling_amended_witness :
    (run_with_gui false ⟨true, true, true⟩ SpawnOutcome.notFound ⟨some "k", []⟩
        = (Except.error (PyExc.systemExit 1),
           pyPrint (pyPrint ⟨some "k", []⟩ guiBannerMsg)
             "Error: Required command not found"))
  ∧ (run_cli ⟨true, true, true⟩ SpawnOutcome.notFound ⟨some "k", []⟩
        = (Except.error PyExc.fileNotFoundError, pyPrint ⟨some "k", []⟩ cliBannerMsg)) :=
  ⟨(launch_failure_handling_amended false ⟨true, true, true⟩ ⟨some "k", []⟩ 0
      rfl rfl rfl).1,
   (launch_failure_handling_amended false ⟨true, true, true⟩ ⟨some "k", []⟩ 0
      rfl rfl rfl).2.2.2⟩

/-- C5: each launch strategy fails fast with a diagnostic and
`sys.exit(1)` when its filesystem dependency is missing — Visual Mode
when `.venv` or the resolved `pipedream-gui` executable is absent,
Terminal Mode when `pytrek_cli.py` is absent — and the result does not
depend on the spawn oracle, so no child is spawned. -/
theorem missing_dependency_fail_fast (win32 : Bool) (fs : FS) (spawn : SpawnOutcome)
    (st : St) :
    (fs.venvExists = false →
       run_with_gui win32 fs spawn st
         = (Except.error (PyExc.systemExit 1),
            pyPrint (pyPrint st guiBannerMsg) venvMissingMsg))
  ∧ (fs.venvExists = true → fs.pipedreamExeExists = false →
       run_with_gui win32 fs spawn st
         = (Except.error (PyExc.systemExit 1),
            pyPrint (pyPrint st guiBannerMsg)
              ("Error: pipedream-gui not found at " ++ pipedreamExePath win32)))
  ∧ (fs.pytrekCliExists = false →
       run_cli fs spawn st
         = (Except.error (PyExc.systemExit 1),
            pyPrint (pyPrint st cliBannerMsg)
              ("Error: pytrek_cli.py not found at " ++ pytrekCliScript))) := by
  refine ⟨fun h => ?_, fun h1 h2 => ?_, fun h => ?_⟩
  · simp [run_with_gui, h]
  · simp [run_with_gui, h1, h2]
  · simp [run_cli, h]

/-- Witness for C5 at concrete missing-dependency states. -/
theorem missing_dependency_fail_fast_witness :
    run_with_gui false ⟨false, true, true⟩ (SpawnOutcome.exit 0) ⟨some "k", []⟩
      = (Except.error (PyExc.systemExit 1),
         pyPrint (pyPrint ⟨some "k", []⟩ guiBannerMsg) venvMissingMsg)
  ∧ run_with_gui false ⟨true, false, true⟩ (SpawnOutcome.exit 0) ⟨some "k", []⟩
      = (Except.error (PyExc.systemExit 1),
         pyPrint (pyPrint ⟨some "k", []⟩ guiBannerMsg)
           ("Error: pipedream-gui not found at " ++ pipedreamExePath false))
  ∧ run_cli ⟨true, true, false⟩ (SpawnOutcome.exit 0) ⟨some "k", []⟩
      = (Except.error (PyExc.systemExit 1),
         pyPrint (pyPrint ⟨some "k", []⟩ cliBannerMsg)
           ("Error: pytrek_cli.py not found at " ++ pytrekCliScript)) :=
  ⟨(missing_dependency_fail_fast false ⟨false, true, true⟩ (SpawnOutcome.exit 0)
      ⟨some "k", []⟩).1 rfl,
   (missing_dependency_fail_fast false ⟨true, false, true⟩ (SpawnOutcome.exit 0)
      ⟨some "k", []⟩).2.1 rfl rfl,
   (missing_dependency_fail_fast false ⟨true, true, false⟩ (SpawnOutcome.exit 0)
      ⟨some "k", []⟩).2.2 rfl⟩

/-- C6: given menu input `"2"` with `pytrek_cli.py` present, a child
exiting 0 makes the parent exit 0, and a child exiting non-zero makes
the parent exit 1 after printing a diagnostic carrying the failing
status. -/
theorem cli_child_exit_propagation (win32 : Bool) (fs : FS) (env0 : Option String)
    (rest : List InEvent) (c : Nat)
    (henv : envTruthy env0 = true) (hfs : fs.pytrekCliExists = true) :
    ((topLevel win32 fs (SpawnOutcome.exit 0) env0 (InEvent.line "2" :: rest)).1
        = Outcome.exited 0)
  ∧ (c ≠ 0 →
      (topLevel win32 fs (SpawnOutcome.exit c) env0 (InEvent.line "2" :: rest)).1
          = Outcome.exited 1
        ∧ ("Error running CLI: " ++ cpeStr c)
            ∈ (topLevel win32 fs (SpawnOutcome.exit c) env0
                (InEvent.line "2" :: rest)).2.out) := by
  have h2 : pyStrip "2" = "2" := by decide
  constructor
  · simp [topLevel, pymain, check_api_key, henv, mainLoop, h2, run_cli, hfs,
      subprocessRun]
  · intro hc
    obtain ⟨d, rfl⟩ : ∃ d, c = d + 1 := ⟨c - 1, by omega⟩
    constructor
    · simp [topLevel, pymain, check_api_key, henv, mainLoop, h2, run_cli, hfs,
        subprocessRun]
    · simp [topLevel, pymain, check_api_key, henv, mainLoop, h2, run_cli, hfs,
        subprocessRun, pyPrint, show_menu]

/-- Witness for C6 with a child exiting 0 and a child exiting 7. -/
theorem cli_child_exit_propagation_witness :
    ((topLevel false ⟨true, true, true⟩ (SpawnOutcome.exit 0) (some "k")
        [InEvent.line "2"]).1 = Outcome.exited 0)
  ∧ ((topLevel false ⟨true, true, true⟩ (SpawnOutcome.exit 7) (some "k")
        [InEvent.line "2"]).1 = Outcome.exited 1
      ∧ ("Error running CLI: " ++ cpeStr 7)
          ∈ (topLevel false ⟨true, true, true⟩ (SpawnOutcome.exit 7) (some "k")
              [InEvent.line "2"]).2.out) :=
  ⟨(cli_child_exit_propagation false ⟨true, true, true⟩ (some "k") [] 7
      (by decide) rfl).1,
   (cli_child_exit_propagation false ⟨true, true, true⟩ (some "k") [] 7
      (by decide) rfl).2 (by decide)⟩

/-- C7: when `GEMINI_API_KEY` is already a non-empty value at startup,
`check_api_key` returns it unchanged, reads no input, prints nothing,
performs no format validation, and leaves the environment unmodified. -/
theorem preset_env_returned_unchanged (k : String) (inp : List InEvent)
    (o : List String) (hk : pyTruthy k = true) :
    check_api_key inp ⟨some k, o⟩ = (Except.ok k, ⟨some k, o⟩, inp) := by
  simp [check_api_key, envTruthy, hk]

/-- Witness for C7 with a pre-set value that does not start with
`"AIza"`: it is still returned unchanged without re-validation. -/
theorem preset_env_returned_unchanged_witness :
    check_api_key [] ⟨some "not-a-google-key", ["x"]⟩
      = (Except.ok "not-a-google-key", ⟨some "not-a-google-key", ["x"]⟩, []) :=
  preset_env_returned_unchanged "not-a-google-key" [] ["x"] (by decide)

/-- C8: menu input `"3"` prints the farewell and raises `SystemExit 0`,
independently of the filesystem and the spawn oracle (so neither launch
strategy runs), and the whole process then exits with status 0. -/
theorem menu_exit_choice (win32 : Bool) (fs : FS) (spawn : SpawnOutcome)
    (rest : List InEvent) (st : St) (env0 : Option String)
    (henv : envTruthy env0 = true) :
    mainLoop win32 fs spawn (InEvent.line "3" :: rest) st
      = (Except.error (PyExc.systemExit 0),
         pyPrint (pyPrint (show_menu st) menuPromptMsg) farewellMenuMsg, rest)
  ∧ topLevel win32 fs spawn env0 (InEvent.line "3" :: rest)
      = (Outcome.exited 0,
         pyPrint (pyPrint (show_menu ⟨env0, []⟩) menuPromptMsg) farewellMenuMsg) := by
  have h3 : pyStrip "3" = "3" := by decide
  constructor
  · simp [mainLoop, h3]
  · simp [topLevel, pymain, check_api_key, henv, mainLoop, h3]

/-- Witness for C8 at a concrete run. -/
theorem menu_exit_choice_witness :
    mainLoop false ⟨true, true, true⟩ SpawnOutcome.notFound
        [InEvent.line "3"] ⟨some "k", []⟩
      = (Except.error (PyExc.systemExit 0),
         pyPrint (pyPrint (show_menu ⟨some "k", []⟩) menuPromptMsg) farewellMenuMsg, [])
  ∧ topLevel false ⟨true, true, true⟩ SpawnOutcome.notFound (some "k")
        [InEvent.line "3"]
      = (Outcome.exited 0,
         pyPrint (pyPrint (show_menu ⟨some "k", []⟩) menuPromptMsg) farewellMenuMsg) :=
  menu_exit_choice false ⟨true, true, true⟩ SpawnOutcome.notFound [] ⟨some "k", []⟩
    (some "k") (by decide)

/-- C9: whenever `check_api_key` returns a key, the environment holds
exactly that key and it is non-empty; and when the key was obtained via
the interactive prompt (the variable was not already truthy), it starts
with `"AIza"`. -/
theorem check_api_key_env_invariant (inp : List InEvent) (st : St) (k : String)
    (st' : St) (rest : List InEvent)
    (h : check_api_key inp st = (Except.ok k, st', rest)) :
    st'.env = some k ∧ pyTruthy k = true ∧
      (envTruthy st.env = false → pyStartsWith k "AIza" = true) := by
  unfold check_api_key at h
  by_cases he : envTruthy st.env = true
  · rw [if_pos he] at h
    simp only [Prod.mk.injEq, Except.ok.injEq] at h
    obtain ⟨h1, h2, h3⟩ := h
    rcases hs : st.env with _ | v
    · rw [hs] at he; simp [envTruthy] at he
    · rw [hs] at h1
      simp only [Option.getD_some] at h1
      subst h1
      refine ⟨by rw [← h2, hs], ?_, ?_⟩
      · rw [hs] at he; simpa [envTruthy] using he
      · intro hf
        rw [hs] at he
        rw [hf] at he
        cases he
  · rw [if_neg he] at h
    have hv := checkApiKeyLoop_ok inp _ k st' rest h
    exact ⟨hv.1, hv.2.1, fun _ => hv.2.2⟩

/-- Witness for C9 on a prompt-obtained key. -/
theorem check_api_key_env_invariant_witness :
    (St.mk (some "AIza9") (headerMsgs ++ [promptMsg, acceptedMsg, ""])).env
        = some "AIza9"
      ∧ pyTruthy "AIza9" = true
      ∧ (envTruthy (St.mk none []).env = false → pyStartsWith "AIza9" "AIza" = true) :=
  check_api_key_env_invariant [InEvent.line "AIza9"] ⟨none, []⟩ "AIza9"
    ⟨some "AIza9", headerMsgs ++ [promptMsg, acceptedMsg, ""]⟩ [] (by rfl)

/-- C10: the menu comparison is on the whitespace-stripped input: any
input stripping to `"1"` runs the Visual Mode strategy, stripping to
`"2"` runs the Terminal Mode strategy, stripping to `"3"` takes the exit
branch — never the invalid-input branch. -/
theorem menu_strip_comparison (win32 : Bool) (fs : FS) (spawn : SpawnOutcome)
    (s : String) (rest : List InEvent) (st : St) :
    (pyStrip s = "1" →
       mainLoop win32 fs spawn (InEvent.line s :: rest) st
         = ((run_with_gui win32 fs spawn (pyPrint (show_menu st) menuPromptMsg)).1,
            (run_with_gui win32 fs spawn (pyPrint (show_menu st) menuPromptMsg)).2,
            rest))
  ∧ (pyStrip s = "2" →
       mainLoop win32 fs spawn (InEvent.line s :: rest) st
         = ((run_cli fs spawn (pyPrint (show_menu st) menuPromptMsg)).1,
            (run_cli fs spawn (pyPrint (show_menu st) menuPromptMsg)).2,
            rest))
  ∧ (pyStrip s = "3" →
       mainLoop win32 fs spawn (InEvent.line s :: rest) st
         = (Except.error (PyExc.systemExit 0),
            pyPrint (pyPrint (show_menu st) menuPromptMsg) farewellMenuMsg,
            rest)) := by
  refine ⟨fun h => ?_, fun h => ?_, fun h => ?_⟩ <;> simp [mainLoop, h]

/-- Witness for C10 at `" 1 "` (stripped to `"1"`) and `"3\n"` (stripped
to `"3"`). -/
theorem menu_strip_comparison_witness :
    mainLoop false ⟨true, true, true⟩ (SpawnOutcome.exit 0)
        [InEvent.line " 1 "] ⟨some "k", []⟩
      = ((run_with_gui false ⟨true, true, true⟩ (SpawnOutcome.exit 0)
            (pyPrint (show_menu ⟨some "k", []⟩) menuPromptMsg)).1,
         (run_with_gui false ⟨true, true, true⟩ (SpawnOutcome.exit 0)
            (pyPrint (show_menu ⟨some "k", []⟩) menuPromptMsg)).2, [])
  ∧ mainLoop false ⟨true, true, true⟩ (SpawnOutcome.exit 0)
        [InEvent.line "3\n"] ⟨some "k", []⟩
      = (Except.error (PyExc.systemExit 0),
         pyPrint (pyPrint (show_menu ⟨some "k", []⟩) menuPromptMsg) farewellMenuMsg,
         []) :=
  ⟨(menu_strip_comparison false ⟨true, true, true⟩ (SpawnOutcome.exit 0) " 1 " []
      ⟨some "k", []⟩).1 (by decide),
   (menu_strip_comparison false ⟨true, true, true⟩ (SpawnOutcome.exit 0) "3\n" []
      ⟨some "k", []⟩).2.2 (by decide)⟩

end Launcher
